import Mathlib

/-!
Shallow embedding of the ysepaysdk client (src/api/common.go).

External collaborators (the easycrypto library, JSON codecs, the HTTP
transport) are abstracted as records of functions; every function of
common.go is embedded as a Lean definition over those records.  Go's
pair-returning fallible functions are modelled as `String × Option Err`
(value, error); Go's multiple assignment semantics (a value is assigned
even when the error is non-nil, unless the source skips the assignment)
are reproduced faithfully.  The global `Verbose` flag is threaded as a
`Bool` parameter and the `log.Printf` calls are modelled as an output
`List String` of log lines.  Clock and RNG reads (`utils.CurrentYYMMDDHHMMSSS`,
`utils.GetCurrentTimeStamp`, `crypto/rand`) become explicit parameters.
-/

namespace Ysepay

abbrev Err := String

/-- Association-list model of `xmap.M` (a JSON object of string values,
which is all the SDK ever stores in one). -/
abbrev JsonMap := List (String × String)

/-- Abstract crypto and codec collaborators (easycrypto, encoding/base64,
net/url encoding).  `base64Decode` returns the partially decoded bytes
together with a success flag, mirroring Go's
`base64.StdEncoding.DecodeString` which returns both a value and an error. -/
structure CryptoOps where
  rsaEncrypt : String → String → String × Option Err
  rsaSign : String → String → String × Option Err
  aesEncryptECB : String → String → String × Option Err
  aesDecryptECB : String → String → String × Option Err
  base64Encode : String → String
  base64Decode : String → String × Bool
  urlEncode : String → String

/-- `RequestPayload` of src/api/common.go (field names follow the JSON tags). -/
structure RequestPayload where
  timeStamp : String
  method : String
  charset : String
  sign : String
  check : String
  bizContent : String
  reqId : String
  certId : String
  version : String
deriving DecidableEq

/-- `ResponsePayload` of src/api/common.go. -/
structure ResponsePayload where
  code : String
  msg : String
  subCode : String
  subMsg : String
  timeStamp : String
  norce : String
  sign : String
  businessData : String
deriving DecidableEq

/-- `Config` of src/api/common.go. -/
structure Config where
  certId : String
  privateKey : String
  publicKey : String

/-- Abstract transport and JSON collaborators used by
`sendRequest` / `sendUploadRequest`.  `http` takes url, content type and
body and yields status code and response body; `openFile` models
`os.Open` plus reading, yielding the base file name and the content;
`buildMultipart` models the multipart writer, yielding content type and
body. -/
structure Wire where
  jsonMarshalReq : RequestPayload → String
  parseResponse : String → Except Err ResponsePayload
  jsonParseMap : String → Except Err JsonMap
  http : String → String → String → Except Err (Nat × String)
  buildMultipart : String → String → JsonMap → Except Err (String × String)
  openFile : String → Except Err (String × String)

/-- Modelled from the spec: the external constant `successCode` is not under
src/; the spec's testable properties use the fixed status-code string
"SUCCESS". -/
def successCode : String := "SUCCESS"

/-- Modelled from the spec: the external constant `ALLCHAR` is not under
src/; the spec describes it as a fixed alphanumeric alphabet. -/
def ALLCHAR : String :=
  "abcdefghijklmnopqrstuvwxyzABCDEFGHIJKLMNOPQRSTUVWXYZ0123456789"

/-- `NewRequestPayload` (common.go:38).  `reqId` and `timeStamp` come from
the clock and are passed in explicitly; the remaining fields start at Go's
zero value `""`. -/
def NewRequestPayload (reqId timeStamp method version : String) : RequestPayload :=
  { timeStamp := timeStamp
    method := method
    charset := "utf-8"
    sign := ""
    check := ""
    bizContent := ""
    reqId := reqId
    certId := ""
    version := version }

/-- `RequestPayload.EncryptCheck` (common.go:48): RSA-encrypt the AES key
with the counterparty public key, base64 the ciphertext into `check`.
On an RSA error the payload is returned unchanged (the source returns
before assigning `r.Check`). -/
def EncryptCheck (co : CryptoOps) (pubKey aesKey : String) (r : RequestPayload) :
    RequestPayload × Option Err :=
  let res := co.rsaEncrypt pubKey aesKey
  match res.2 with
  | some e => (r, some e)
  | none => ({ r with check := co.base64Encode res.1 }, none)

/-- `RequestPayload.EncryptBizContent` (common.go:57): AES-ECB-encrypt the
current `bizContent` in place.  Go's multiple assignment stores the
returned value into the field even when the error is non-nil. -/
def EncryptBizContent (co : CryptoOps) (keyByte : String) (r : RequestPayload) :
    RequestPayload × Option Err :=
  let res := co.aesEncryptECB r.bizContent keyByte
  ({ r with bizContent := res.1 }, res.2)

/-- Modelled from the spec: `utils.MapToUrlValues` (package `ys_sdk/utils`)
is code of this repository that is not under src/.  Per the spec it renders
the envelope fields as `key=value` pairs joined by `&` with URL-encoded
values, in the fixed protocol order timeStamp, method, charset, reqId,
certId, version, check, bizContent; it is modelled as an order-preserving
render of an association list, and `makeSignBefore` supplies the pairs in
exactly that fixed order. -/
def MapToUrlValues (urlEncode : String → String) : JsonMap → String
  | [] => ""
  | [kv] => kv.1 ++ "=" ++ urlEncode kv.2
  | kv :: rest => kv.1 ++ "=" ++ urlEncode kv.2 ++ "&" ++ MapToUrlValues urlEncode rest

/-- `RequestPayload.makeSignBefore` (common.go:62): the canonical string
that gets signed. -/
def makeSignBefore (co : CryptoOps) (r : RequestPayload) : String :=
  MapToUrlValues co.urlEncode
    [("timeStamp", r.timeStamp), ("method", r.method), ("charset", r.charset),
     ("reqId", r.reqId), ("certId", r.certId), ("version", r.version),
     ("check", r.check), ("bizContent", r.bizContent)]

/-- `RequestPayload.CalcSign` (common.go:76): RSA-sign the canonical
string with the private key.  Go's multiple assignment stores the returned
signature into `sign` even when the error is non-nil; under `Verbose` the
canonical string is logged first. -/
def CalcSign (co : CryptoOps) (verbose : Bool) (key : String) (r : RequestPayload) :
    (RequestPayload × Option Err) × List String :=
  let content := makeSignBefore co r
  let logs := if verbose then ["before CalcSign string " ++ content] else []
  let res := co.rsaSign key content
  (({ r with sign := res.1 }, res.2), logs)

/-- `RequestPayload.EncodeMap` (common.go:91), in the source's insertion
order. -/
def EncodeMap (r : RequestPayload) : JsonMap :=
  [("timeStamp", r.timeStamp), ("method", r.method), ("charset", r.charset),
   ("sign", r.sign), ("check", r.check), ("bizContent", r.bizContent),
   ("reqId", r.reqId), ("certId", r.certId), ("version", r.version)]

/-- `Config.Decode` (common.go:143): AES-decrypt `businessData` with the
per-request key and parse the plaintext as a JSON map. -/
def Decode (co : CryptoOps) (w : Wire) (aseKey businessData : String) :
    Except Err JsonMap :=
  let res := co.aesDecryptECB businessData aseKey
  match res.2 with
  | some e => Except.error e
  | none => w.jsonParseMap res.1

/-- Lines 157-164 of `Config.Request` (identical in `Config.UploadRequest`,
lines 198-205): build the payload, RSA-encrypt the AES key into `check`
and AES-encrypt the business content — with the errors of both encryption
steps discarded, exactly as in the source. -/
def payloadBeforeSign (co : CryptoOps) (cfg : Config)
    (reqId timeStamp aesKey method version bizContent : String) : RequestPayload :=
  let payload := NewRequestPayload reqId timeStamp method version
  let payload := { payload with certId := cfg.certId }
  let payload := (EncryptCheck co cfg.publicKey aesKey payload).1
  let payload := { payload with bizContent := bizContent }
  (EncryptBizContent co aesKey payload).1

/-- Lines 157-166 of `Config.Request`: the payload handed to the transport,
together with the signing error (the only error the source checks). -/
def buildSignedPayload (co : CryptoOps) (verbose : Bool) (cfg : Config)
    (reqId timeStamp aesKey method version bizContent : String) :
    (RequestPayload × Option Err) × List String :=
  CalcSign co verbose cfg.privateKey
    (payloadBeforeSign co cfg reqId timeStamp aesKey method version bizContent)

/-- `sendRequest` (common.go:231): marshal the payload to JSON, POST it,
require status 200, optimistically base64-decode the body falling back to
the raw bytes, and parse the result as a `ResponsePayload`. -/
def sendRequest (co : CryptoOps) (w : Wire) (verbose : Bool) (url : String)
    (payload : RequestPayload) : Except Err ResponsePayload × List String :=
  let jsonData := w.jsonMarshalReq payload
  let logs1 := if verbose then ["request url " ++ url, "request payload " ++ jsonData]
    else []
  match w.http url "application/json" jsonData with
  | Except.error e => (Except.error ("request error: " ++ e), logs1)
  | Except.ok sr =>
    if sr.1 ≠ 200 then (Except.error ("non-200 status: " ++ toString sr.1), logs1)
    else
      let body := sr.2
      let logs2 := logs1 ++ (if verbose then ["response body " ++ body] else [])
      let dec := co.base64Decode body
      let body2 := if dec.2 then dec.1 else body
      let logs3 := logs2 ++ (if verbose then ["response body " ++ body2] else [])
      match w.parseResponse body2 with
      | Except.error e => (Except.error ("JSON unmarshal error: " ++ e), logs3)
      | Except.ok rp => (Except.ok rp, logs3)

/-- `sendUploadRequest` (common.go:312): build the multipart form from the
file and `EncodeMap`, POST it, require status 200, base64-decode the body
with the error discarded — the decode result replaces the body
unconditionally — and parse as `ResponsePayload`. -/
def sendUploadRequest (co : CryptoOps) (w : Wire) (verbose : Bool) (url : String)
    (payload : RequestPayload) (fileName fileContent : String) :
    Except Err ResponsePayload × List String :=
  let params := EncodeMap payload
  match w.buildMultipart fileName fileContent params with
  | Except.error e => (Except.error e, [])
  | Except.ok mp =>
    match w.http url mp.1 mp.2 with
    | Except.error e => (Except.error ("request error: " ++ e), [])
    | Except.ok sr =>
      if sr.1 ≠ 200 then (Except.error ("non-200 status: " ++ toString sr.1), [])
      else
        let dec := co.base64Decode sr.2
        let body2 := dec.1
        let logs := if verbose then ["response body " ++ body2] else []
        match w.parseResponse body2 with
        | Except.error e => (Except.error ("JSON unmarshal error: " ++ e), logs)
        | Except.ok rp => (Except.ok rp, logs)

/-- `Config.Request` (common.go:153).  The named return `resp` is never
assigned in the source, so the first component of the returned triple is
`none` on every path, exactly as in the Go code. -/
def Request (co : CryptoOps) (w : Wire) (verbose : Bool) (cfg : Config)
    (reqId timeStamp aesKey url method version bizContent : String) :
    (Option ResponsePayload × JsonMap × Option Err) × List String :=
  let logs0 := if verbose then ["request bizContent " ++ bizContent] else []
  let bs := buildSignedPayload co verbose cfg reqId timeStamp aesKey method version
    bizContent
  let payload := bs.1.1
  let logs := logs0 ++ bs.2
  match bs.1.2 with
  | some e => ((none, ([] : JsonMap), some e), logs ++ ["sign failed: " ++ e])
  | none =>
    let sr := sendRequest co w verbose url payload
    let logs := logs ++ sr.2
    match sr.1 with
    | Except.error e => ((none, ([] : JsonMap), some e), logs)
    | Except.ok response =>
      let logs := logs ++ (if verbose then ["response"] else [])
      if response.code ≠ successCode then
        ((none, ([] : JsonMap),
          some ("code:" ++ response.code ++ " msg:" ++ response.msg)), logs)
      else
        match Decode co w aesKey response.businessData with
        | Except.error e => ((none, ([] : JsonMap), some e), logs)
        | Except.ok data => ((none, data, none), logs)

/-- `Config.UploadRequest` (common.go:188).  Same build-and-send pipeline as
`Request`, but: the file is opened first; the transport is multipart; and on
`code = successCode` the business data is parsed from `businessData` as raw
JSON only when `subCode = successCode`, with no AES decryption.  As in
`Request`, the named return `resp` is never assigned. -/
def UploadRequest (co : CryptoOps) (w : Wire) (verbose : Bool) (cfg : Config)
    (reqId timeStamp aesKey url method version filePath bizContent : String) :
    (Option ResponsePayload × JsonMap × Option Err) × List String :=
  let logs0 := if verbose then ["request bizContent " ++ bizContent] else []
  match w.openFile filePath with
  | Except.error e => ((none, ([] : JsonMap), some e), logs0 ++ ["open file failed: " ++ e])
  | Except.ok fc =>
    let bs := buildSignedPayload co verbose cfg reqId timeStamp aesKey method version
      bizContent
    let payload := bs.1.1
    let logs := logs0 ++ bs.2
    match bs.1.2 with
    | some e => ((none, ([] : JsonMap), some e), logs ++ ["sign failed: " ++ e])
    | none =>
      let sr := sendUploadRequest co w verbose url payload fc.1 fc.2
      let logs := logs ++ sr.2
      match sr.1 with
      | Except.error e => ((none, ([] : JsonMap), some e), logs)
      | Except.ok response =>
        let logs := logs ++ (if verbose then ["response"] else [])
        if response.code ≠ successCode then
          ((none, ([] : JsonMap),
            some ("code:" ++ response.code ++ " msg:" ++ response.msg)), logs)
        else
          if response.subCode == successCode then
            match w.jsonParseMap response.businessData with
            | Except.error e => ((none, ([] : JsonMap), some e), logs)
            | Except.ok data => ((none, data, none), logs)
          else ((none, ([] : JsonMap), none), logs)

/-- `getRandomString` (common.go:288): one character of `ALLCHAR` per draw.
`draws i` models the i-th `rand.Int(rand.Reader, len(ALLCHAR))`, which is
guaranteed in `[0, len(ALLCHAR))`; out-of-range indices (impossible for the
real RNG) fall back to a default character. -/
def getRandomString (draws : Nat → Nat) (length : Nat) : String :=
  String.mk ((List.range length).map fun i => ALLCHAR.toList.getD (draws i) 'a')

/-! Concrete instances of the abstract collaborators, used to evaluate the
embedding on closed inputs. -/

/-- Concrete configuration for evaluation. -/
def testCfg : Config := { certId := "cert", privateKey := "priv", publicKey := "pub" }

/-- Concrete crypto collaborators: tagged-string stand-ins for the
ciphertexts, with base64 decoding that always succeeds and returns the
input. -/
def testCrypto : CryptoOps where
  rsaEncrypt := fun pub d => ("RSA[" ++ pub ++ "|" ++ d ++ "]", none)
  rsaSign := fun k d => ("SIG[" ++ k ++ "|" ++ d ++ "]", none)
  aesEncryptECB := fun d k => ("AES[" ++ d ++ "|" ++ k ++ "]", none)
  aesDecryptECB := fun d k => ("DEC[" ++ d ++ "|" ++ k ++ "]", none)
  base64Encode := fun s => "B64[" ++ s ++ "]"
  base64Decode := fun s => (s, true)
  urlEncode := fun s => s

/-- Response envelope with the given status fields and business data. -/
def testResp (code subCode businessData : String) : ResponsePayload :=
  { code := code, msg := "m", subCode := subCode, subMsg := "", timeStamp := "",
    norce := "", sign := "", businessData := businessData }

/-- Concrete wire collaborators: the server always answers 200 with a body
that parses to `resp`, and every JSON map parse yields `m`. -/
def testWire (resp : ResponsePayload) (m : JsonMap) : Wire where
  jsonMarshalReq := fun _ => "marshalled"
  parseResponse := fun _ => Except.ok resp
  jsonParseMap := fun _ => Except.ok m
  http := fun _ _ _ => Except.ok (200, "body")
  buildMultipart := fun _ _ _ => Except.ok ("multipart", "mpbody")
  openFile := fun _ => Except.ok ("name", "content")

/-- Crypto collaborators whose key-dependent primitives ignore the key. -/
def constCrypto : CryptoOps :=
  { testCrypto with
    rsaEncrypt := fun _ _ => ("CT", none)
    aesEncryptECB := fun _ _ => ("BCT", none) }

/-- C1: the canonical sign-string concatenates timeStamp, method, charset,
reqId, certId, version, check, bizContent as key=value pairs joined by `&`
with URL-encoded values, in that fixed order, and it is the string the
signature is computed over after `check` and `bizContent` hold their final
encrypted values (the base64 RSA ciphertext of the AES key and the AES
ciphertext of the business content). -/
theorem sign_string_fixed_order_after_encryption
    (co : CryptoOps) (vb : Bool) (cfg : Config)
    (reqId timeStamp aesKey method version bizContent ct bct : String)
    (hrsa : co.rsaEncrypt cfg.publicKey aesKey = (ct, none))
    (haes : co.aesEncryptECB bizContent aesKey = (bct, none)) :
    makeSignBefore co
        (payloadBeforeSign co cfg reqId timeStamp aesKey method version bizContent)
      = MapToUrlValues co.urlEncode
          [("timeStamp", timeStamp), ("method", method), ("charset", "utf-8"),
           ("reqId", reqId), ("certId", cfg.certId), ("version", version),
           ("check", co.base64Encode ct), ("bizContent", bct)]
    ∧ (buildSignedPayload co vb cfg reqId timeStamp aesKey method version
        bizContent).1.1.sign
      = (co.rsaSign cfg.privateKey (makeSignBefore co
          (payloadBeforeSign co cfg reqId timeStamp aesKey method version
            bizContent))).1 := by
  constructor
  · simp [makeSignBefore, payloadBeforeSign, NewRequestPayload, EncryptCheck,
      EncryptBizContent, hrsa, haes]
  · rfl

/-- Witness for C1 at concrete inputs. -/
theorem sign_string_fixed_order_after_encryption_w :
    makeSignBefore testCrypto
        (payloadBeforeSign testCrypto testCfg "r" "t" "k" "m" "v" "b")
      = MapToUrlValues testCrypto.urlEncode
          [("timeStamp", "t"), ("method", "m"), ("charset", "utf-8"),
           ("reqId", "r"), ("certId", testCfg.certId), ("version", "v"),
           ("check", testCrypto.base64Encode "RSA[pub|k]"),
           ("bizContent", "AES[b|k]")] :=
  (sign_string_fixed_order_after_encryption testCrypto false testCfg
    "r" "t" "k" "m" "v" "b" "RSA[pub|k]" "AES[b|k]" rfl rfl).1

/-- C8: the built envelope depends on the raw AES key only through its two
ciphertexts (the RSA encryption of the key and the AES encryption of the
business content) — so the key travels only in encrypted form — and on
RSA success the `check` field is exactly the base64 of the RSA ciphertext
of the key. -/
theorem aes_key_only_in_encrypted_form (co : CryptoOps) (vb : Bool) (cfg : Config)
    (reqId timeStamp method version bizContent : String) :
    (∀ k1 k2, co.rsaEncrypt cfg.publicKey k1 = co.rsaEncrypt cfg.publicKey k2 →
      co.aesEncryptECB bizContent k1 = co.aesEncryptECB bizContent k2 →
      buildSignedPayload co vb cfg reqId timeStamp k1 method version bizContent
        = buildSignedPayload co vb cfg reqId timeStamp k2 method version bizContent)
    ∧ (∀ k ct, co.rsaEncrypt cfg.publicKey k = (ct, none) →
      (payloadBeforeSign co cfg reqId timeStamp k method version bizContent).check
        = co.base64Encode ct) := by
  constructor
  · intro k1 k2 h1 h2
    simp only [buildSignedPayload, payloadBeforeSign, EncryptCheck,
      EncryptBizContent, NewRequestPayload]
    rw [h1, h2]
  · intro k ct h
    simp [payloadBeforeSign, EncryptCheck, EncryptBizContent, NewRequestPayload, h]

/-- Witness for C8: with key-oblivious primitives, two different raw keys
yield the same envelope. -/
theorem aes_key_only_in_encrypted_form_w :
    buildSignedPayload constCrypto false testCfg "r" "t" "k1" "m" "v" "b"
      = buildSignedPayload constCrypto false testCfg "r" "t" "k2" "m" "v" "b" :=
  (aes_key_only_in_encrypted_form constCrypto false testCfg "r" "t" "m" "v" "b").1
    "k1" "k2" rfl rfl

/-- C9: a sixteen-draw random string has exactly 16 characters and every
character is drawn from the alphabet `ALLCHAR`, given that each draw is in
`[0, len(ALLCHAR))` as `rand.Int` guarantees. -/
theorem getRandomString_sixteen_from_allchar (draws : Nat → Nat)
    (h : ∀ i, i < 16 → draws i < ALLCHAR.length) :
    (getRandomString draws 16).length = 16 ∧
      ∀ c ∈ (getRandomString draws 16).toList, c ∈ ALLCHAR.toList := by
  constructor
  · show ((List.range 16).map fun i => ALLCHAR.toList.getD (draws i) 'a').length = 16
    simp
  · intro c hc
    have hc2 : c ∈ (List.range 16).map fun i => ALLCHAR.toList.getD (draws i) 'a' := hc
    obtain ⟨i, hi, hget⟩ := List.mem_map.1 hc2
    have hi16 : i < 16 := List.mem_range.1 hi
    have hlt : draws i < ALLCHAR.toList.length := h i hi16
    show c ∈ ALLCHAR.toList
    rw [← hget, List.getD_eq_getElem _ _ hlt]
    exact List.getElem_mem hlt

/-- Witness for C9 at a concrete draw sequence. -/
theorem getRandomString_sixteen_from_allchar_w :
    (getRandomString (fun i => i) 16).length = 16 :=
  (getRandomString_sixteen_from_allchar (fun i => i)
    (fun i hi => lt_of_lt_of_le hi (by decide))).1

/-- Reduction of `Request` on a run whose signing succeeds and whose server
answer carries a non-success code: the call errors with `code:... msg:...`
and the data stays empty. -/
theorem Request_nonsuccess_aux (co : CryptoOps) (w : Wire) (vb : Bool) (cfg : Config)
    (reqId timeStamp aesKey url method version bizContent : String)
    (resp : ResponsePayload)
    (hsign : (buildSignedPayload co vb cfg reqId timeStamp aesKey method version
        bizContent).1.2 = none)
    (hsend : (sendRequest co w vb url
        (buildSignedPayload co vb cfg reqId timeStamp aesKey method version
          bizContent).1.1).1 = Except.ok resp)
    (hcode : resp.code ≠ successCode) :
    (Request co w vb cfg reqId timeStamp aesKey url method version bizContent).1
      = (none, ([] : JsonMap),
          some ("code:" ++ resp.code ++ " msg:" ++ resp.msg)) := by
  simp only [Request, hsign, hsend]
  simp [hcode]

/-- C2: evaluation at a fully successful exchange (HTTP ok, `code` equal to
the success sentinel, decryption and parsing succeed).  The decrypted data
comes back, but the first component of the returned triple is `none`: the
source never assigns its named return `resp`, so the parsed envelope is
never returned. -/
theorem request_success_envelope_is_none :
    (Request testCrypto (testWire (testResp successCode "SUCCESS" "BD") [("a", "1")])
        false testCfg "r" "t" "k" "u" "m" "v" "b").1
      = (none, [("a", "1")], none) := rfl

/-- C6: on a non-success `code` the call returns the `code:... msg:...`
error with no data, and the result is independent of the AES decryption
collaborator — `businessData` is never decrypted. -/
theorem request_nonsuccess_error_no_decrypt
    (co : CryptoOps) (w : Wire) (vb : Bool) (cfg : Config)
    (reqId timeStamp aesKey url method version bizContent : String)
    (resp : ResponsePayload)
    (hsign : (buildSignedPayload co vb cfg reqId timeStamp aesKey method version
        bizContent).1.2 = none)
    (hsend : (sendRequest co w vb url
        (buildSignedPayload co vb cfg reqId timeStamp aesKey method version
          bizContent).1.1).1 = Except.ok resp)
    (hcode : resp.code ≠ successCode) :
    (Request co w vb cfg reqId timeStamp aesKey url method version bizContent).1
      = (none, ([] : JsonMap),
          some ("code:" ++ resp.code ++ " msg:" ++ resp.msg))
    ∧ ∀ g, (Request { co with aesDecryptECB := g } w vb cfg reqId timeStamp aesKey
        url method version bizContent).1
      = (Request co w vb cfg reqId timeStamp aesKey url method version
          bizContent).1 := by
  refine ⟨Request_nonsuccess_aux co w vb cfg reqId timeStamp aesKey url method
    version bizContent resp hsign hsend hcode, ?_⟩
  intro g
  have h1 : (Request { co with aesDecryptECB := g } w vb cfg reqId timeStamp aesKey
      url method version bizContent).1
      = (none, ([] : JsonMap),
          some ("code:" ++ resp.code ++ " msg:" ++ resp.msg)) :=
    Request_nonsuccess_aux { co with aesDecryptECB := g } w vb cfg reqId timeStamp
      aesKey url method version bizContent resp hsign hsend hcode
  have h2 := Request_nonsuccess_aux co w vb cfg reqId timeStamp aesKey url method
    version bizContent resp hsign hsend hcode
  rw [h1, h2]

/-- Witness for C6 at a concrete non-success response. -/
theorem request_nonsuccess_error_no_decrypt_w :
    (Request testCrypto (testWire (testResp "FAIL" "SUCCESS" "BD") [("a", "1")])
        false testCfg "r" "t" "k" "u" "m" "v" "b").1
      = (none, ([] : JsonMap), some ("code:" ++ "FAIL" ++ " msg:" ++ "m")) :=
  (request_nonsuccess_error_no_decrypt testCrypto
    (testWire (testResp "FAIL" "SUCCESS" "BD") [("a", "1")]) false testCfg
    "r" "t" "k" "u" "m" "v" "b" (testResp "FAIL" "SUCCESS" "BD")
    rfl rfl (by decide)).1

/-- C7: an upload response with `code` equal to the success sentinel but
`subCode` different from it returns without error and with no business
data. -/
theorem upload_subcode_nonsuccess_no_data
    (co : CryptoOps) (w : Wire) (vb : Bool) (cfg : Config)
    (reqId timeStamp aesKey url method version filePath bizContent : String)
    (resp : ResponsePayload) (fc : String × String)
    (hopen : w.openFile filePath = Except.ok fc)
    (hsign : (buildSignedPayload co vb cfg reqId timeStamp aesKey method version
        bizContent).1.2 = none)
    (hsend : (sendUploadRequest co w vb url
        (buildSignedPayload co vb cfg reqId timeStamp aesKey method version
          bizContent).1.1 fc.1 fc.2).1 = Except.ok resp)
    (hcode : resp.code = successCode)
    (hsub : resp.subCode ≠ successCode) :
    (UploadRequest co w vb cfg reqId timeStamp aesKey url method version filePath
        bizContent).1
      = (none, ([] : JsonMap), none) := by
  simp only [UploadRequest, hopen, hsign, hsend]
  simp [hcode, hsub]

/-- Witness for C7 at a concrete two-tier response. -/
theorem upload_subcode_nonsuccess_no_data_w :
    (UploadRequest testCrypto (testWire (testResp "SUCCESS" "SUB" "BD") [("a", "1")])
        false testCfg "r" "t" "k" "u" "m" "v" "f" "b").1
      = (none, ([] : JsonMap), none) :=
  upload_subcode_nonsuccess_no_data testCrypto
    (testWire (testResp "SUCCESS" "SUB" "BD") [("a", "1")]) false testCfg
    "r" "t" "k" "u" "m" "v" "f" "b" (testResp "SUCCESS" "SUB" "BD")
    ("name", "content") rfl rfl rfl rfl (by decide)

/-- Wire collaborators whose JSON-map parser records the exact string it was
given, so that which bytes get parsed is observable. -/
def echoWire (resp : ResponsePayload) : Wire :=
  { testWire resp [] with jsonParseMap := fun s => Except.ok [("raw", s)] }

/-- Counterexample to C3: at a concrete upload exchange with `code` and
`subCode` both equal to the success sentinel, the business data returned by
`UploadRequest` is the JSON parse of the raw `businessData` string, while
the `Request`-style path (`Config.Decode`, AES decryption then parsing)
yields a different value — the two paths do not obtain the data the same
way. -/
theorem upload_data_not_decrypted_cex :
    (UploadRequest testCrypto (echoWire (testResp "SUCCESS" "SUCCESS" "BD")) false
        testCfg "r" "t" "k" "u" "m" "v" "f" "b").1.2.1
      = [("raw", "BD")]
    ∧ Decode testCrypto (echoWire (testResp "SUCCESS" "SUCCESS" "BD")) "k" "BD"
      = Except.ok [("raw", "DEC[BD|k]")]
    ∧ ([("raw", "BD")] : JsonMap) ≠ [("raw", "DEC[BD|k]")] :=
  ⟨rfl, rfl, by decide⟩

/-- C3 as amended: when both `code` and `subCode` equal the success
sentinel, `UploadRequest` parses the response's `businessData` directly as
JSON — without AES-decrypting it — and returns the parsed map. -/
theorem upload_success_parses_raw_businessData
    (co : CryptoOps) (w : Wire) (vb : Bool) (cfg : Config)
    (reqId timeStamp aesKey url method version filePath bizContent : String)
    (resp : ResponsePayload) (fc : String × String) (dm : JsonMap)
    (hopen : w.openFile filePath = Except.ok fc)
    (hsign : (buildSignedPayload co vb cfg reqId timeStamp aesKey method version
        bizContent).1.2 = none)
    (hsend : (sendUploadRequest co w vb url
        (buildSignedPayload co vb cfg reqId timeStamp aesKey method version
          bizContent).1.1 fc.1 fc.2).1 = Except.ok resp)
    (hcode : resp.code = successCode)
    (hsub : resp.subCode = successCode)
    (hparse : w.jsonParseMap resp.businessData = Except.ok dm) :
    (UploadRequest co w vb cfg reqId timeStamp aesKey url method version filePath
        bizContent).1
      = (none, dm, none) := by
  simp only [UploadRequest, hopen, hsign, hsend]
  simp [hcode, hsub, hparse]

/-- Witness for the amended C3 at a concrete exchange. -/
theorem upload_success_parses_raw_businessData_w :
    (UploadRequest testCrypto (echoWire (testResp "SUCCESS" "SUCCESS" "BD")) false
        testCfg "r" "t" "k" "u" "m" "v" "f" "b").1
      = (none, [("raw", "BD")], none) :=
  upload_success_parses_raw_businessData testCrypto
    (echoWire (testResp "SUCCESS" "SUCCESS" "BD")) false testCfg
    "r" "t" "k" "u" "m" "v" "f" "b" (testResp "SUCCESS" "SUCCESS" "BD")
    ("name", "content") [("raw", "BD")] rfl rfl rfl rfl rfl rfl

/-- Crypto collaborators whose RSA encryption always fails. -/
def failRsaCrypto : CryptoOps :=
  { testCrypto with rsaEncrypt := fun _ _ => ("", some "rsa error") }

/-- C4 evaluation at the failing input: RSA encryption of the AES key fails,
yet the call does not abort — the envelope is built with an empty `check`
(the RSA error is discarded at common.go:161/202), it is signed, sent, and
the call completes without surfacing any error. -/
theorem encryption_failure_ignored_eval :
    (failRsaCrypto.rsaEncrypt testCfg.publicKey "k").2 = some "rsa error"
    ∧ (payloadBeforeSign failRsaCrypto testCfg "r" "t" "k" "m" "v" "b").check = ""
    ∧ (Request failRsaCrypto
        (testWire (testResp "SUCCESS" "SUCCESS" "BD") [("a", "1")]) false testCfg
        "r" "t" "k" "u" "m" "v" "b").1
      = (none, [("a", "1")], none) :=
  ⟨rfl, rfl, rfl⟩

/-- Crypto collaborators whose base64 decoding always fails, returning the
empty partially-decoded prefix together with the failure flag. -/
def b64FailCrypto : CryptoOps :=
  { testCrypto with base64Decode := fun _ => ("", false) }

/-- Wire collaborators whose server answers 200 with a fixed non-base64
body and whose response parser records the exact bytes it was handed in the
`businessData` field. -/
def parseEchoWire : Wire where
  jsonMarshalReq := fun _ => "marshalled"
  parseResponse := fun s => Except.ok (testResp "SUCCESS" "SUCCESS" s)
  jsonParseMap := fun _ => Except.ok []
  http := fun _ _ _ => Except.ok (200, "RAWBODY")
  buildMultipart := fun _ _ _ => Except.ok ("multipart", "mpbody")
  openFile := fun _ => Except.ok ("name", "content")

/-- Counterexample to C5: on the same 200 response body whose base64 decode
fails, the plain-JSON path parses the raw body, but the multipart path
parses the (empty) partial decode output instead of the raw body — the raw
bytes are not used unchanged there. -/
theorem upload_no_raw_body_fallback_cex :
    (sendRequest b64FailCrypto parseEchoWire false "u"
        (NewRequestPayload "r" "t" "m" "v")).1
      = Except.ok (testResp "SUCCESS" "SUCCESS" "RAWBODY")
    ∧ (sendUploadRequest b64FailCrypto parseEchoWire false "u"
        (NewRequestPayload "r" "t" "m" "v") "name" "content").1
      = Except.ok (testResp "SUCCESS" "SUCCESS" "")
    ∧ testResp "SUCCESS" "SUCCESS" "" ≠ testResp "SUCCESS" "SUCCESS" "RAWBODY" :=
  ⟨rfl, rfl, by decide⟩

/-- C5 as amended: on a 200 body whose base64 decode fails, `sendRequest`
falls back to parsing the raw body bytes unchanged, while
`sendUploadRequest` hands the parser the base64 decode output
unconditionally — the partial decode result, not the raw body. -/
theorem base64_decode_failure_paths
    (co : CryptoOps) (w : Wire) (vb : Bool) (url : String) (p : RequestPayload)
    (body pd : String)
    (hdec : co.base64Decode body = (pd, false)) :
    ((w.http url "application/json" (w.jsonMarshalReq p) = Except.ok (200, body) →
      (sendRequest co w vb url p).1
        = match w.parseResponse body with
          | Except.error e => Except.error ("JSON unmarshal error: " ++ e)
          | Except.ok rp => Except.ok rp))
    ∧ ∀ fn fc mp, w.buildMultipart fn fc (EncodeMap p) = Except.ok mp →
        w.http url mp.1 mp.2 = Except.ok (200, body) →
        (sendUploadRequest co w vb url p fn fc).1
          = match w.parseResponse pd with
            | Except.error e => Except.error ("JSON unmarshal error: " ++ e)
            | Except.ok rp => Except.ok rp := by
  constructor
  · intro hhttp
    simp only [sendRequest, hhttp]
    simp [hdec]
    cases w.parseResponse body <;> rfl
  · intro fn fc mp hmp hhttp
    simp only [sendUploadRequest, hmp, hhttp]
    simp [hdec]
    cases w.parseResponse pd <;> rfl

/-- Witness for the amended C5 at a concrete failing decode. -/
theorem base64_decode_failure_paths_w :
    (sendRequest b64FailCrypto parseEchoWire false "u"
        (NewRequestPayload "r" "t" "m" "v")).1
      = match parseEchoWire.parseResponse "RAWBODY" with
        | Except.error e => Except.error ("JSON unmarshal error: " ++ e)
        | Except.ok rp => Except.ok rp :=
  (base64_decode_failure_paths b64FailCrypto parseEchoWire false "u"
    (NewRequestPayload "r" "t" "m" "v") "RAWBODY" "" rfl).1 rfl

/-- Helper: the non-log component of `sendRequest` does not depend on the
verbose flag. -/
theorem sendRequest_fst_verbose (co : CryptoOps) (w : Wire) (b : Bool)
    (url : String) (p : RequestPayload) :
    (sendRequest co w b url p).1 = (sendRequest co w false url p).1 := by
  simp only [sendRequest]
  cases hh : w.http url "application/json" (w.jsonMarshalReq p) with
  | error e => rfl
  | ok sr =>
    by_cases h200 : sr.1 ≠ 200
    · simp only [if_pos h200]
    · simp only [if_neg h200]
      cases hq : w.parseResponse
          (if (co.base64Decode sr.2).2 then (co.base64Decode sr.2).1 else sr.2) <;>
        simp only [hq]

/-- Helper: the non-log component of `sendUploadRequest` does not depend on
the verbose flag. -/
theorem sendUploadRequest_fst_verbose (co : CryptoOps) (w : Wire) (b : Bool)
    (url : String) (p : RequestPayload) (fn fc : String) :
    (sendUploadRequest co w b url p fn fc).1
      = (sendUploadRequest co w false url p fn fc).1 := by
  simp only [sendUploadRequest]
  cases hm : w.buildMultipart fn fc (EncodeMap p) with
  | error e => rfl
  | ok mp =>
    dsimp only
    cases hh : w.http url mp.1 mp.2 with
    | error e => rfl
    | ok sr =>
      dsimp only
      by_cases h200 : sr.1 ≠ 200
      · simp only [if_pos h200]
      · simp only [if_neg h200]
        cases hq : w.parseResponse (co.base64Decode sr.2).1 <;> simp [hq]

/-- Helper: the non-log component of `Request` does not depend on the
verbose flag. -/
theorem Request_fst_verbose (co : CryptoOps) (w : Wire) (b : Bool) (cfg : Config)
    (reqId timeStamp aesKey url method version bizContent : String) :
    (Request co w b cfg reqId timeStamp aesKey url method version bizContent).1
      = (Request co w false cfg reqId timeStamp aesKey url method version
          bizContent).1 := by
  have hbs : (buildSignedPayload co b cfg reqId timeStamp aesKey method version
      bizContent).1
      = (buildSignedPayload co false cfg reqId timeStamp aesKey method version
          bizContent).1 := rfl
  simp only [Request]
  rw [hbs]
  cases hse : (buildSignedPayload co false cfg reqId timeStamp aesKey method version
      bizContent).1.2 with
  | some e => rfl
  | none =>
    rw [sendRequest_fst_verbose co w b url]
    cases hsr : (sendRequest co w false url
        (buildSignedPayload co false cfg reqId timeStamp aesKey method version
          bizContent).1.1).1 with
    | error e => rfl
    | ok response =>
      by_cases hc : response.code ≠ successCode
      · simp only [if_pos hc]
      · simp only [if_neg hc]
        cases hd : Decode co w aesKey response.businessData <;> simp only [hd]

/-- Helper: the non-log component of `UploadRequest` does not depend on the
verbose flag. -/
theorem UploadRequest_fst_verbose (co : CryptoOps) (w : Wire) (b : Bool)
    (cfg : Config)
    (reqId timeStamp aesKey url method version filePath bizContent : String) :
    (UploadRequest co w b cfg reqId timeStamp aesKey url method version filePath
        bizContent).1
      = (UploadRequest co w false cfg reqId timeStamp aesKey url method version
          filePath bizContent).1 := by
  have hbs : (buildSignedPayload co b cfg reqId timeStamp aesKey method version
      bizContent).1
      = (buildSignedPayload co false cfg reqId timeStamp aesKey method version
          bizContent).1 := rfl
  simp only [UploadRequest]
  cases ho : w.openFile filePath with
  | error e => rfl
  | ok fc =>
    dsimp only
    rw [hbs]
    cases hse : (buildSignedPayload co false cfg reqId timeStamp aesKey method
        version bizContent).1.2 with
    | some e => rfl
    | none =>
      dsimp only
      rw [sendUploadRequest_fst_verbose co w b url]
      cases hsr : (sendUploadRequest co w false url
          (buildSignedPayload co false cfg reqId timeStamp aesKey method version
            bizContent).1.1 fc.1 fc.2).1 with
      | error e => rfl
      | ok response =>
        dsimp only
        by_cases hc : response.code ≠ successCode
        · simp only [if_pos hc]
        · simp only [if_neg hc]
          by_cases hs : (response.subCode == successCode) = true
          · simp only [if_pos hs]
            cases hq : w.jsonParseMap response.businessData <;> simp [hq]
          · simp only [if_neg hs]

/-- C10: the Verbose logging flag never influences the returned
(response, data, error) triple of `Request` or `UploadRequest`; for
identical inputs, configuration, randomness, clock values and server
behaviour, runs under different Verbose values return identical values. -/
theorem verbose_flag_noninterference (co : CryptoOps) (w : Wire) (b1 b2 : Bool)
    (cfg : Config)
    (reqId timeStamp aesKey url method version filePath bizContent : String) :
    (Request co w b1 cfg reqId timeStamp aesKey url method version bizContent).1
      = (Request co w b2 cfg reqId timeStamp aesKey url method version
          bizContent).1
    ∧ (UploadRequest co w b1 cfg reqId timeStamp aesKey url method version
        filePath bizContent).1
      = (UploadRequest co w b2 cfg reqId timeStamp aesKey url method version
          filePath bizContent).1 :=
  ⟨(Request_fst_verbose co w b1 cfg reqId timeStamp aesKey url method version
      bizContent).trans
    (Request_fst_verbose co w b2 cfg reqId timeStamp aesKey url method version
      bizContent).symm,
   (UploadRequest_fst_verbose co w b1 cfg reqId timeStamp aesKey url method
      version filePath bizContent).trans
    (UploadRequest_fst_verbose co w b2 cfg reqId timeStamp aesKey url method
      version filePath bizContent).symm⟩

end Ysepay
